import Mathlib

/-!
# Verification of the library browser (catalog scan, paginated query, paired rename)

Shallow embedding of `src/backend/library_browser.py`.

Conventions of the embedding:
* The filesystem is a finite list of regular files (`RawFile`), each with an
  absolute POSIX path, a byte size and a modification time.  Directories are
  represented implicitly: a path "exists" as a directory when it is a proper
  prefix (followed by `/`) of some file's path.  Only regular files are moved
  by the rename primitive, matching the operations the code performs.
* Python `os.path` functions (`dirname`, `basename`, `splitext`, `join`) are
  translated for POSIX path strings, following the `posixpath` implementations.
* Python integers are `Int`; byte sizes are `Nat`; modification times are `Int`
  (an idealisation of the float timestamp — no claim depends on fractional
  times).  `math.ceil(a / b)` on integers is the exact rational ceiling.
* Python's stable `list.sort(key=…, reverse=…)` is a stable sort with the
  comparison reversed when `reverse=True` (ties keep original order, as in
  CPython).  It is modelled by `List.insertionSort`, which is stable for a
  total preorder and therefore produces exactly the output of CPython's
  stable sort (the output of a stable sort is unique).
* The nondeterministic iteration order of the Python `set` of subtitle
  extensions is fixed to the literal's order, and filesystem walk order is the
  order of the file list.
* Environmental I/O faults of `os.rename` (permissions etc.) are modelled by
  oracle parameters (`Option String`, the exception text); `none` means the
  call succeeds.  The division in `get_files_paginated` can raise
  `ZeroDivisionError` deterministically, so that operation returns `Except`.
-/

/-- Index of the last occurrence of `c` (Python `str.rfind`), `none` if absent. -/
def lastIdx (c : Char) : List Char → Option Nat
  | [] => none
  | a :: rest =>
    match lastIdx c rest with
    | some i => some (i + 1)
    | none => if a = c then some 0 else none

/-- `posixpath.basename`: everything after the last `/`. -/
def pyBasename (p : String) : String :=
  match lastIdx '/' p.data with
  | none => p
  | some i => ⟨p.data.drop (i + 1)⟩

/-- `posixpath.dirname`: everything before the last `/`, with trailing slashes
stripped unless the head is all slashes. -/
def pyDirname (p : String) : String :=
  match lastIdx '/' p.data with
  | none => ""
  | some i =>
    let head := p.data.take (i + 1)
    if head.all (fun c => c = '/') then ⟨head⟩
    else ⟨(head.reverse.dropWhile (fun c => c = '/')).reverse⟩

/-- `posixpath.join` for two components. -/
def pyJoin (a b : String) : String :=
  if b.data.head? = some '/' then b
  else if a = "" ∨ a.data.getLast? = some '/' then a ++ b
  else a ++ "/" ++ b

/-- `posixpath.splitext`: split at the last dot that lies after the last slash
and is preceded (within the basename) by at least one non-dot character. -/
def pySplitext (p : String) : String × String :=
  let sep : Int := match lastIdx '/' p.data with | none => -1 | some s => (s : Int)
  let dot : Int := match lastIdx '.' p.data with | none => -1 | some d => (d : Int)
  if sep < dot then
    let start := (sep + 1).toNat
    let stop := dot.toNat
    if ((p.data.drop start).take (stop - start)).any (fun c => c ≠ '.') then
      (⟨p.data.take stop⟩, ⟨p.data.drop stop⟩)
    else (p, "")
  else (p, "")

/-- Python `str.lower()` (character-wise; the repository's extension and sort
keys are ASCII). -/
def strLower (s : String) : String :=
  ⟨s.data.map Char.toLower⟩

/-- Case-insensitive substring test (`needle in hay` after lowering, Python `in`). -/
def strContains (hay needle : String) : Bool :=
  (List.range (hay.data.length + 1)).any
    (fun i => needle.data.isPrefixOf (hay.data.drop i))

/-- `self.video_extensions` (a Python set literal; order fixed to the literal). -/
def video_extensions : List String :=
  [".mp4", ".mkv", ".avi", ".mov", ".wmv", ".flv", ".webm", ".m4v", ".mpg", ".mpeg"]

/-- `self.subtitle_extensions` (order fixed to the literal). -/
def subtitle_extensions : List String :=
  [".srt", ".sub", ".vtt", ".ass", ".ssa"]

/-- `self.supported_extensions`. -/
def supported_extensions : List String :=
  video_extensions ++ subtitle_extensions ++
    [".mp3", ".flac", ".wav", ".aac", ".m4a", ".pdf", ".epub", ".mobi"]

/-- One regular file on the modelled filesystem. -/
structure RawFile where
  path : String
  size : Nat
  mtime : Int
deriving DecidableEq, Repr

/-- The modelled filesystem: a finite list of regular files. -/
abbrev FS := List RawFile

/-- A regular file exists at `p`. -/
def isFile (fs : FS) (p : String) : Bool :=
  fs.any (fun f => f.path = p)

/-- `p` exists as a (non-empty) directory: some file lives strictly below it. -/
def isDir (fs : FS) (p : String) : Bool :=
  fs.any (fun f => (p ++ "/").data.isPrefixOf f.path.data)

/-- `os.path.exists` on the modelled filesystem. -/
def pathExists (fs : FS) (p : String) : Bool :=
  isFile fs p || isDir fs p

/-- A walked file path lies strictly below the root. -/
def underRoot (root p : String) : Bool :=
  (root ++ "/").data.isPrefixOf p.data

/-- `os.path.relpath p root` for paths below `root` (the only paths the
scanner produces): strip `root ++ "/"`. -/
def relPath (root p : String) : String :=
  ⟨p.data.drop (root.data.length + 1)⟩

/-- The per-file dictionary built by `_get_all_files` / `get_file_info`. -/
structure FileRec where
  filename : String
  full_path : String
  relative_path : String
  directory : String
  extension : String
  size : Nat
  modified : Int
  is_video : Bool
  is_subtitle : Bool
deriving DecidableEq, Repr

/-- Build the record for one walked file (body of the loop in `_get_all_files`). -/
def mkFileRec (root : String) (f : RawFile) : FileRec :=
  let filename := pyBasename f.path
  let file_ext := strLower (pySplitext filename).2
  let relative_path := relPath root f.path
  { filename := filename
    full_path := f.path
    relative_path := relative_path
    directory := pyDirname relative_path
    extension := file_ext
    size := f.size
    modified := f.mtime
    is_video := video_extensions.contains file_ext
    is_subtitle := subtitle_extensions.contains file_ext }

/-- `LibraryBrowser._get_all_files`: empty when the root does not exist, else
every file below the root whose (lower-cased) extension is supported, in walk
(list) order. -/
def get_all_files (fs : FS) (root : String) : List FileRec :=
  if pathExists fs root = false then []
  else
    ((fs.filter (fun f =>
        underRoot root f.path &&
        supported_extensions.contains (strLower (pySplitext (pyBasename f.path)).2))).map
      (mkFileRec root))

/-- Python list slicing `l[a:b]` with int bounds (negative indices count from
the end; out-of-range bounds clamp). -/
def pySlice {α : Type} (l : List α) (a b : Int) : List α :=
  let n : Int := l.length
  let a' := (if a < 0 then max 0 (n + a) else min a n).toNat
  let b' := (if b < 0 then max 0 (n + b) else min b n).toNat
  (l.drop a').take (b' - a')

/-- Exact integer ceiling of the rational `a / b` (for `b ≠ 0`), the value of
Python `math.ceil(a / b)`. -/
def ceilQ (a b : Int) : Int := -((-a).fdiv b)

/-- The `pagination` sub-dictionary of a query result. -/
structure Pagination where
  current_page : Int
  per_page : Int
  total_files : Nat
  total_pages : Int
  has_previous : Bool
  has_next : Bool
deriving DecidableEq, Repr

/-- The `stats` sub-dictionary of a query result. -/
structure Stats where
  total_files : Nat
  video_files : Nat
  subtitle_files : Nat
  total_size : Nat
deriving DecidableEq, Repr

/-- The dictionary returned by `get_files_paginated`. -/
structure PageResult where
  files : List FileRec
  pagination : Pagination
  stats : Stats
deriving DecidableEq, Repr

/-- The search filter of `get_files_paginated` (`if search:` — `None` and the
empty string both skip filtering; matching is case-insensitive on `filename`
and `relative_path`). -/
def searchFilter (l : List FileRec) (search : Option String) : List FileRec :=
  match search with
  | none => l
  | some s =>
    if s = "" then l
    else l.filter (fun f =>
      strContains (strLower f.filename) (strLower s) ||
      strContains (strLower f.relative_path) (strLower s))

/-- The sort step of `get_files_paginated`: stable sort by the selected key,
with the comparison reversed when `sort_order = "desc"` (unrecognised
`sort_by` falls back to `modified`). -/
def sortRecs (l : List FileRec) (sort_by sort_order : String) : List FileRec :=
  if sort_by = "filename" then
    if sort_order = "desc" then
      l.insertionSort (fun a b => strLower b.filename ≤ strLower a.filename)
    else
      l.insertionSort (fun a b => strLower a.filename ≤ strLower b.filename)
  else if sort_by = "size" then
    if sort_order = "desc" then l.insertionSort (fun a b => b.size ≤ a.size)
    else l.insertionSort (fun a b => a.size ≤ b.size)
  else
    if sort_order = "desc" then l.insertionSort (fun a b => b.modified ≤ a.modified)
    else l.insertionSort (fun a b => a.modified ≤ b.modified)

/-- The filtered, sorted catalog a query operates on (`all_files` after the
filter and sort steps of `get_files_paginated`). -/
def filteredSorted (fs : FS) (root : String) (search : Option String)
    (sort_by sort_order : String) : List FileRec :=
  sortRecs (searchFilter (get_all_files fs root) search) sort_by sort_order

/-- `LibraryBrowser.get_files_paginated`.  The only fault the function can
raise is `ZeroDivisionError`, from `math.ceil(total_files / per_page)` when
`total_files > 0` and `per_page == 0`; every other path returns the result
dictionary. -/
def get_files_paginated (fs : FS) (root : String) (page per_page : Int)
    (search : Option String) (sort_by sort_order : String) :
    Except String PageResult :=
  let all_files := filteredSorted fs root search sort_by sort_order
  let total_files := all_files.length
  if total_files > 0 ∧ per_page = 0 then
    Except.error "ZeroDivisionError: division by zero"
  else
    let total_pages : Int := if total_files > 0 then ceilQ total_files per_page else 1
    let page1 := max 1 (min page total_pages)
    let start_idx := (page1 - 1) * per_page
    let end_idx := start_idx + per_page
    let page_files := pySlice all_files start_idx end_idx
    Except.ok
      { files := page_files
        pagination :=
          { current_page := page1
            per_page := per_page
            total_files := total_files
            total_pages := total_pages
            has_previous := decide (page1 > 1)
            has_next := decide (page1 < total_pages) }
        stats :=
          { total_files := total_files
            video_files := (all_files.filter (fun f => f.is_video)).length
            subtitle_files := (all_files.filter (fun f => f.is_subtitle)).length
            total_size := (all_files.map (fun f => f.size)).sum } }

/-- `LibraryBrowser.find_related_subtitle`: first subtitle-extension candidate
`video_dir/video_base + ext` that exists. -/
def find_related_subtitle (fs : FS) (video_path : String) : Option String :=
  let video_dir := pyDirname video_path
  let video_base := (pySplitext (pyBasename video_path)).1
  (subtitle_extensions.map (fun ext => pyJoin video_dir (video_base ++ ext))).find?
    (fun p => pathExists fs p)

/-- One entry of `result['renamed_files']`. -/
structure RenamedEntry where
  old : String
  new : String
  type : String
deriving DecidableEq, Repr

/-- The dictionary returned by `rename_file`. -/
structure RenameOutcome where
  success : Bool
  message : String
  renamed_files : List RenamedEntry
deriving DecidableEq, Repr

/-- POSIX `os.rename` on the modelled filesystem: a no-op when source and
destination coincide, otherwise the destination (if any) is replaced and the
source file now lives at the destination path. -/
def osRename (fs : FS) (old new : String) : FS :=
  if old = new then fs
  else
    (fs.filter (fun f => f.path ≠ new)).map
      (fun f => if f.path = old then { f with path := new } else f)

/-- The destination filename computed by `rename_file`
(`splitext(new_name)[0] + splitext(basename(old_path))[1]`). -/
def newFilenameOf (old_path new_name : String) : String :=
  (pySplitext new_name).1 ++ (pySplitext (pyBasename old_path)).2

/-- The destination path computed by `rename_file`. -/
def computedDest (old_path new_name : String) : String :=
  pyJoin (pyDirname old_path) (newFilenameOf old_path new_name)

/-- `result['message']` on success. -/
def successMsg (n : Nat) : String :=
  "Successfully renamed " ++ toString n ++ " file(s)"

/-- `LibraryBrowser.rename_file`.  `primaryFault` (resp. `subFault`) injects an
environmental exception into the primary (resp. subtitle) `os.rename` call,
carrying the exception text; `none` means the call succeeds.  A primary fault
is caught by the outer handler (failed outcome); a subtitle fault is caught by
the inner handler and swallowed. -/
def rename_file (fs : FS) (old_path new_name : String) (rename_subtitle : Bool)
    (primaryFault subFault : Option String) : RenameOutcome × FS :=
  if pathExists fs old_path = false then
    (⟨false, "File not found: " ++ old_path, []⟩, fs)
  else
    let old_dir := pyDirname old_path
    let old_ext := (pySplitext (pyBasename old_path)).2
    let new_base := (pySplitext new_name).1
    let new_filename := newFilenameOf old_path new_name
    let new_path := computedDest old_path new_name
    if pathExists fs new_path = true ∧ new_path ≠ old_path then
      (⟨false, "Destination file already exists: " ++ new_filename, []⟩, fs)
    else
      match primaryFault with
      | some e => (⟨false, "Error: " ++ e, []⟩, fs)
      | none =>
        let fs1 := osRename fs old_path new_path
        let mainEntry : RenamedEntry := ⟨old_path, new_path, "main"⟩
        if rename_subtitle && video_extensions.contains (strLower old_ext) then
          match find_related_subtitle fs1 old_path with
          | some subtitle_path =>
            let subtitle_ext := (pySplitext subtitle_path).2
            let new_subtitle_path := pyJoin old_dir (new_base ++ subtitle_ext)
            match subFault with
            | some _ => (⟨true, successMsg 1, [mainEntry]⟩, fs1)
            | none =>
              (⟨true, successMsg 2,
                 [mainEntry, ⟨subtitle_path, new_subtitle_path, "subtitle"⟩]⟩,
               osRename fs1 subtitle_path new_subtitle_path)
          | none => (⟨true, successMsg 1, [mainEntry]⟩, fs1)
        else (⟨true, successMsg 1, [mainEntry]⟩, fs1)

/-- The dictionary returned by `get_file_info` (the subtitle fields are only
present for video files, modelled with `Option`). -/
structure FileInfo where
  filename : String
  full_path : String
  relative_path : String
  directory : String
  extension : String
  size : Nat
  modified : Int
  is_video : Bool
  is_subtitle : Bool
  has_subtitle : Option Bool
  subtitle_path : Option (Option String)
deriving DecidableEq, Repr

/-- `LibraryBrowser.get_file_info`. -/
def get_file_info (fs : FS) (root : String) (file_path : String) : Option FileInfo :=
  if pathExists fs file_path = false then none
  else
    let filename := pyBasename file_path
    let file_ext := strLower (pySplitext filename).2
    let relative_path := relPath root file_path
    let is_video := video_extensions.contains file_ext
    some
      { filename := filename
        full_path := file_path
        relative_path := relative_path
        directory := pyDirname relative_path
        extension := file_ext
        size := ((fs.find? (fun f => f.path = file_path)).map (fun f => f.size)).getD 0
        modified := ((fs.find? (fun f => f.path = file_path)).map (fun f => f.mtime)).getD 0
        is_video := is_video
        is_subtitle := subtitle_extensions.contains file_ext
        has_subtitle := if is_video then some (find_related_subtitle fs file_path).isSome else none
        subtitle_path := if is_video then some (find_related_subtitle fs file_path) else none }

/-! ## Helper lemmas -/

theorem str_append_ne_empty (s t : String) (h : s ≠ "") : s ++ t ≠ "" := by
  intro hc
  apply h
  apply String.ext
  have hd := congrArg String.data hc
  rw [String.data_append] at hd
  exact (List.append_eq_nil.mp hd).1

theorem successMsg_ne_empty (n : Nat) : successMsg n ≠ "" := by
  unfold successMsg
  exact str_append_ne_empty _ _ (str_append_ne_empty _ _ (by decide))

theorem ceilQ_pos {a b : Int} (ha : 0 < a) (hb : 0 < b) : 1 ≤ ceilQ a b := by
  unfold ceilQ
  rw [Int.fdiv_eq_ediv _ (Int.le_of_lt hb)]
  have h : (-a) / b < 0 := by
    rw [Int.ediv_lt_iff_lt_mul hb, Int.zero_mul]
    omega
  omega

theorem length_sortRecs (l : List FileRec) (sb so : String) :
    (sortRecs l sb so).length = l.length := by
  unfold sortRecs
  repeat' split
  all_goals apply List.length_insertionSort

theorem pySlice_nil {α : Type} (a b : Int) : pySlice ([] : List α) a b = [] := by
  simp [pySlice]

/-! ## Claims -/

/-- C9: for every root path that does not exist on the filesystem, the catalog
scan returns an empty sequence of records and does not signal an error. -/
theorem C9_missing_root_empty_scan (fs : FS) (root : String)
    (h : pathExists fs root = false) : get_all_files fs root = [] := by
  unfold get_all_files
  rw [if_pos h]

theorem C9_missing_root_empty_scan_witness :
    pathExists [] "/library" = false ∧ get_all_files [] "/library" = [] :=
  ⟨by decide, C9_missing_root_empty_scan [] "/library" (by decide)⟩

/-- C2: a rename whose source does not exist, or whose computed destination is
occupied by a different file, returns `success = false` with a descriptive
message, an empty `renamed_files` list, and leaves the filesystem unchanged. -/
theorem C2_failed_rename_no_mutation (fs : FS) (old_path new_name : String)
    (rename_subtitle : Bool) (primaryFault subFault : Option String)
    (h : pathExists fs old_path = false ∨
      (pathExists fs (computedDest old_path new_name) = true ∧
        computedDest old_path new_name ≠ old_path)) :
    (rename_file fs old_path new_name rename_subtitle primaryFault subFault).1.success = false ∧
    (rename_file fs old_path new_name rename_subtitle primaryFault subFault).1.renamed_files
        = [] ∧
    (rename_file fs old_path new_name rename_subtitle primaryFault subFault).2 = fs ∧
    ((rename_file fs old_path new_name rename_subtitle primaryFault subFault).1.message =
        "File not found: " ++ old_path ∨
      (rename_file fs old_path new_name rename_subtitle primaryFault subFault).1.message =
        "Destination file already exists: " ++ newFilenameOf old_path new_name) := by
  by_cases hex : pathExists fs old_path = false
  · unfold rename_file
    rw [if_pos hex]
    exact ⟨rfl, rfl, rfl, Or.inl rfl⟩
  · have hocc := h.resolve_left hex
    unfold rename_file
    rw [if_neg hex, if_pos hocc]
    exact ⟨rfl, rfl, rfl, Or.inr rfl⟩

theorem C2_failed_rename_no_mutation_witness :
    (pathExists [RawFile.mk "lib/a.mp4" 5 10] "lib/missing.mp4" = false ∨
      (pathExists [RawFile.mk "lib/a.mp4" 5 10]
          (computedDest "lib/missing.mp4" "b") = true ∧
        computedDest "lib/missing.mp4" "b" ≠ "lib/missing.mp4")) ∧
    ((rename_file [RawFile.mk "lib/a.mp4" 5 10] "lib/missing.mp4" "b" true none
        none).1.success = false ∧
      (rename_file [RawFile.mk "lib/a.mp4" 5 10] "lib/missing.mp4" "b" true none
        none).1.renamed_files = [] ∧
      (rename_file [RawFile.mk "lib/a.mp4" 5 10] "lib/missing.mp4" "b" true none
        none).2 = [RawFile.mk "lib/a.mp4" 5 10] ∧
      ((rename_file [RawFile.mk "lib/a.mp4" 5 10] "lib/missing.mp4" "b" true none
          none).1.message = "File not found: " ++ "lib/missing.mp4" ∨
        (rename_file [RawFile.mk "lib/a.mp4" 5 10] "lib/missing.mp4" "b" true none
          none).1.message =
          "Destination file already exists: " ++
            newFilenameOf "lib/missing.mp4" "b")) :=
  ⟨Or.inl (by decide),
   C2_failed_rename_no_mutation [RawFile.mk "lib/a.mp4" 5 10] "lib/missing.mp4" "b"
     true none none (Or.inl (by decide))⟩

theorem sortRecs_perm (l : List FileRec) (sb so : String) :
    List.Perm (sortRecs l sb so) l := by
  unfold sortRecs
  repeat' split
  all_goals apply List.perm_insertionSort

/-- C6: for every query with positive `per_page`, every field of `stats` —
`total_files`, `video_files`, `subtitle_files` and `total_size` — is computed
over the whole filtered set (not the returned page slice), independently of
`page` and `per_page`. -/
theorem C6_stats_over_filtered_set (fs : FS) (root : String) (page pp : Int)
    (s : Option String) (sb so : String) (hpp : 0 < pp) :
    ∃ r, get_files_paginated fs root page pp s sb so = Except.ok r ∧
      r.stats.total_files = (searchFilter (get_all_files fs root) s).length ∧
      r.stats.video_files =
        ((searchFilter (get_all_files fs root) s).filter (fun f => f.is_video)).length ∧
      r.stats.subtitle_files =
        ((searchFilter (get_all_files fs root) s).filter (fun f => f.is_subtitle)).length ∧
      r.stats.total_size =
        ((searchFilter (get_all_files fs root) s).map (fun f => f.size)).sum := by
  have hcond : ¬((filteredSorted fs root s sb so).length > 0 ∧ pp = 0) := by
    rintro ⟨-, h0⟩
    omega
  have hperm : List.Perm (filteredSorted fs root s sb so)
      (searchFilter (get_all_files fs root) s) := by
    unfold filteredSorted
    exact sortRecs_perm _ sb so
  unfold get_files_paginated
  rw [if_neg hcond]
  refine ⟨_, rfl, hperm.length_eq, (hperm.filter (fun f => f.is_video)).length_eq,
    (hperm.filter (fun f => f.is_subtitle)).length_eq,
    (hperm.map (fun f => f.size)).sum_eq⟩

theorem C6_stats_over_filtered_set_witness :
    (0 : Int) < 2 ∧
    ∃ r, get_files_paginated [RawFile.mk "lib/a.mp4" 5 10, RawFile.mk "lib/b.srt" 2 20]
        "lib" 7 2 none "size" "asc" = Except.ok r ∧
      r.stats.total_files =
        (searchFilter
          (get_all_files [RawFile.mk "lib/a.mp4" 5 10, RawFile.mk "lib/b.srt" 2 20] "lib")
          none).length ∧
      r.stats.video_files =
        ((searchFilter
          (get_all_files [RawFile.mk "lib/a.mp4" 5 10, RawFile.mk "lib/b.srt" 2 20] "lib")
          none).filter (fun f => f.is_video)).length ∧
      r.stats.subtitle_files =
        ((searchFilter
          (get_all_files [RawFile.mk "lib/a.mp4" 5 10, RawFile.mk "lib/b.srt" 2 20] "lib")
          none).filter (fun f => f.is_subtitle)).length ∧
      r.stats.total_size =
        ((searchFilter
          (get_all_files [RawFile.mk "lib/a.mp4" 5 10, RawFile.mk "lib/b.srt" 2 20] "lib")
          none).map (fun f => f.size)).sum :=
  ⟨by decide,
   C6_stats_over_filtered_set [RawFile.mk "lib/a.mp4" 5 10, RawFile.mk "lib/b.srt" 2 20]
     "lib" 7 2 none "size" "asc" (by decide)⟩

/-- C7: for every query whose filtered set is empty (with positive `per_page`),
the result has `total_pages = 1`, an empty `files` list, `has_previous = false`
and `has_next = false`, and the query succeeds. -/
theorem C7_empty_filtered_set (fs : FS) (root : String) (page pp : Int)
    (s : Option String) (sb so : String)
    (hL : filteredSorted fs root s sb so = []) (hpp : 0 < pp) :
    ∃ r, get_files_paginated fs root page pp s sb so = Except.ok r ∧
      r.pagination.total_pages = 1 ∧ r.files = [] ∧
      r.pagination.has_previous = false ∧ r.pagination.has_next = false := by
  unfold get_files_paginated
  rw [hL]
  have hone : max 1 (min page 1) = 1 := by omega
  refine ⟨_, by rw [if_neg (by simp)], ?_, ?_, ?_, ?_⟩
  · simp
  · simp [pySlice_nil]
  · simp [hone]
  · simp [hone]

theorem C7_empty_filtered_set_witness :
    filteredSorted [] "/library" none "size" "asc" = [] ∧ (0 : Int) < 3 ∧
    ∃ r, get_files_paginated [] "/library" 9 3 none "size" "asc" = Except.ok r ∧
      r.pagination.total_pages = 1 ∧ r.files = [] ∧
      r.pagination.has_previous = false ∧ r.pagination.has_next = false :=
  ⟨by decide, by decide,
   C7_empty_filtered_set [] "/library" 9 3 none "size" "asc" (by decide) (by decide)⟩

/-- C1 counterexample: the claim admits any integer `per_page`, but a query
with `per_page = 0` over a non-empty catalog raises `ZeroDivisionError`
(`math.ceil(total_files / per_page)` divides by zero), so the caller does not
receive a structured result. -/
theorem C1_counterexample :
    get_files_paginated [RawFile.mk "lib/a.mp4" 5 10] "lib" 1 0 none "modified" "desc" =
      Except.error "ZeroDivisionError: division by zero" := rfl

/-- C1 (amended): for every query with *positive* `per_page` (the spec's own
precondition on `perPage`), and for every rename and file-info call, the
operation returns a structured result: the query returns a result dictionary,
the rename outcome always carries a non-empty message (for any injected
`os.rename` faults, which its handlers catch), and the info lookup returns a
record exactly when the path exists. -/
theorem C1_structured_results (fs : FS) (root : String) (page pp : Int)
    (s : Option String) (sb so : String) (old_path new_name info_path : String)
    (rename_subtitle : Bool) (primaryFault subFault : Option String)
    (hpp : 0 < pp) :
    (∃ r, get_files_paginated fs root page pp s sb so = Except.ok r) ∧
    (rename_file fs old_path new_name rename_subtitle primaryFault
        subFault).1.message ≠ "" ∧
    (get_file_info fs root info_path).isSome = pathExists fs info_path := by
  refine ⟨?_, ?_, ?_⟩
  · have hcond : ¬((filteredSorted fs root s sb so).length > 0 ∧ pp = 0) := by
      rintro ⟨-, h0⟩
      omega
    unfold get_files_paginated
    rw [if_neg hcond]
    exact ⟨_, rfl⟩
  · simp only [rename_file]
    repeat' split
    all_goals first
      | exact str_append_ne_empty _ _ (by decide)
      | exact successMsg_ne_empty 1
      | exact successMsg_ne_empty 2
  · unfold get_file_info
    by_cases hex : pathExists fs info_path = false
    · rw [if_pos hex, hex]
      rfl
    · rw [if_neg hex]
      simp only [Bool.not_eq_false] at hex
      rw [hex]
      rfl

theorem C1_structured_results_witness :
    (0 : Int) < 2 ∧
    ((∃ r, get_files_paginated [RawFile.mk "lib/a.mp4" 5 10] "lib" 1 2 none "size" "asc" =
        Except.ok r) ∧
      (rename_file [RawFile.mk "lib/a.mp4" 5 10] "lib/a.mp4" "b" true none
          none).1.message ≠ "" ∧
      (get_file_info [RawFile.mk "lib/a.mp4" 5 10] "lib" "lib/a.mp4").isSome =
        pathExists [RawFile.mk "lib/a.mp4" 5 10] "lib/a.mp4") :=
  ⟨by decide,
   C1_structured_results [RawFile.mk "lib/a.mp4" 5 10] "lib" 1 2 none "size" "asc"
     "lib/a.mp4" "b" "lib/a.mp4" true none none (by decide)⟩

/-- C3: over a non-empty filtered set with positive `per_page`, the requested
page is clamped into `[1, total_pages]` before slicing; a request beyond the
last page returns that last page's slice with `has_next = false`; and
`has_previous`/`has_next` compare the clamped page against the bounds. -/
theorem C3_page_clamped (fs : FS) (root : String) (page pp : Int)
    (s : Option String) (sb so : String)
    (hL : filteredSorted fs root s sb so ≠ []) (hpp : 0 < pp) :
    ∃ r, get_files_paginated fs root page pp s sb so = Except.ok r ∧
      ∃ tp cp, r.pagination.total_pages = tp ∧ r.pagination.current_page = cp ∧
        cp = max 1 (min page tp) ∧ 1 ≤ cp ∧ cp ≤ tp ∧
        r.pagination.has_previous = decide (1 < cp) ∧
        r.pagination.has_next = decide (cp < tp) ∧
        (tp < page →
          ∃ rl, get_files_paginated fs root tp pp s sb so = Except.ok rl ∧
            r.files = rl.files ∧ r.pagination.has_next = false) := by
  have hlen : 0 < (filteredSorted fs root s sb so).length :=
    List.length_pos.mpr hL
  have hcond : ¬((filteredSorted fs root s sb so).length > 0 ∧ pp = 0) := by
    rintro ⟨-, h0⟩
    omega
  have htp : 1 ≤ ceilQ ((filteredSorted fs root s sb so).length : Int) pp :=
    ceilQ_pos (by exact_mod_cast hlen) hpp
  simp only [get_files_paginated]
  rw [if_neg hcond, if_pos hlen]
  refine ⟨_, rfl, ceilQ ((filteredSorted fs root s sb so).length : Int) pp,
    max 1 (min page (ceilQ ((filteredSorted fs root s sb so).length : Int) pp)),
    rfl, rfl, rfl, by omega, by omega, rfl, rfl, ?_⟩
  intro hpage
  rw [if_neg hcond]
  have hP : max 1 (min page (ceilQ ((filteredSorted fs root s sb so).length : Int) pp)) =
      ceilQ ((filteredSorted fs root s sb so).length : Int) pp := by omega
  have hPT : max 1 (min (ceilQ ((filteredSorted fs root s sb so).length : Int) pp)
      (ceilQ ((filteredSorted fs root s sb so).length : Int) pp)) =
      ceilQ ((filteredSorted fs root s sb so).length : Int) pp := by omega
  refine ⟨_, rfl, ?_, ?_⟩
  · simp only [hP, hPT]
  · simp only [hP]
    exact decide_eq_false (by omega)

theorem C3_page_clamped_witness :
    filteredSorted [RawFile.mk "lib/a.mp4" 5 10, RawFile.mk "lib/b.srt" 2 20,
        RawFile.mk "lib/c.mkv" 7 5] "lib" none "size" "asc" ≠ [] ∧
    (0 : Int) < 2 ∧
    (∃ r, get_files_paginated [RawFile.mk "lib/a.mp4" 5 10, RawFile.mk "lib/b.srt" 2 20,
          RawFile.mk "lib/c.mkv" 7 5] "lib" 7 2 none "size" "asc" = Except.ok r ∧
      ∃ tp cp, r.pagination.total_pages = tp ∧ r.pagination.current_page = cp ∧
        cp = max 1 (min 7 tp) ∧ 1 ≤ cp ∧ cp ≤ tp ∧
        r.pagination.has_previous = decide (1 < cp) ∧
        r.pagination.has_next = decide (cp < tp) ∧
        (tp < 7 →
          ∃ rl, get_files_paginated [RawFile.mk "lib/a.mp4" 5 10,
              RawFile.mk "lib/b.srt" 2 20, RawFile.mk "lib/c.mkv" 7 5] "lib" tp 2 none
              "size" "asc" = Except.ok rl ∧
            r.files = rl.files ∧ r.pagination.has_next = false)) :=
  ⟨by decide, by decide,
   C3_page_clamped [RawFile.mk "lib/a.mp4" 5 10, RawFile.mk "lib/b.srt" 2 20,
       RawFile.mk "lib/c.mkv" 7 5] "lib" 7 2 none "size" "asc" (by decide) (by decide)⟩

instance : IsTotal FileRec (fun a b => a.size ≤ b.size) :=
  ⟨fun a b => Nat.le_total a.size b.size⟩

instance : IsTrans FileRec (fun a b => a.size ≤ b.size) :=
  ⟨fun _ _ _ hab hbc => Nat.le_trans hab hbc⟩

instance : IsTotal FileRec (fun a b => b.size ≤ a.size) :=
  ⟨fun a b => (Nat.le_total a.size b.size).symm⟩

instance : IsTrans FileRec (fun a b => b.size ≤ a.size) :=
  ⟨fun _ _ _ hab hbc => Nat.le_trans hbc hab⟩

instance : IsAntisymm FileRec (fun a b => a.size < b.size) :=
  ⟨fun _ _ h h2 => absurd (Nat.lt_trans h h2) (Nat.lt_irrefl _)⟩

/-- C8: over a set of records with pairwise-distinct sizes, sorting by size
ascending and sorting by size descending yield exactly reversed sequences. -/
theorem C8_size_sort_reversal (l : List FileRec)
    (hd : l.Pairwise (fun a b => a.size ≠ b.size)) :
    sortRecs l "size" "asc" = (sortRecs l "size" "desc").reverse := by
  have hA : sortRecs l "size" "asc" = l.insertionSort (fun a b => a.size ≤ b.size) := rfl
  have hD : sortRecs l "size" "desc" = l.insertionSort (fun a b => b.size ≤ a.size) := rfl
  rw [hA, hD]
  have pA : List.Perm (l.insertionSort (fun a b => a.size ≤ b.size)) l :=
    List.perm_insertionSort _ l
  have pD : List.Perm (l.insertionSort (fun a b => b.size ≤ a.size)) l :=
    List.perm_insertionSort _ l
  have pDR : List.Perm (l.insertionSort (fun a b => b.size ≤ a.size)).reverse l :=
    (List.reverse_perm (l.insertionSort (fun a b => b.size ≤ a.size))).trans pD
  have sA : (l.insertionSort (fun a b => a.size ≤ b.size)).Pairwise
      (fun a b => a.size ≤ b.size) :=
    List.sorted_insertionSort _ l
  have sD : (l.insertionSort (fun a b => b.size ≤ a.size)).Pairwise
      (fun a b => b.size ≤ a.size) :=
    List.sorted_insertionSort _ l
  have sDR : (l.insertionSort (fun a b => b.size ≤ a.size)).reverse.Pairwise
      (fun a b => a.size ≤ b.size) := by
    rw [List.pairwise_reverse]
    exact sD
  have dA : (l.insertionSort (fun a b => a.size ≤ b.size)).Pairwise
      (fun a b => a.size ≠ b.size) :=
    (pA.pairwise_iff (fun h => Ne.symm h)).mpr hd
  have dDR : (l.insertionSort (fun a b => b.size ≤ a.size)).reverse.Pairwise
      (fun a b => a.size ≠ b.size) :=
    (pDR.pairwise_iff (fun h => Ne.symm h)).mpr hd
  have sA' : (l.insertionSort (fun a b => a.size ≤ b.size)).Pairwise
      (fun a b => a.size < b.size) :=
    (sA.and dA).imp (fun h => Nat.lt_of_le_of_ne h.1 h.2)
  have sDR' : (l.insertionSort (fun a b => b.size ≤ a.size)).reverse.Pairwise
      (fun a b => a.size < b.size) :=
    (sDR.and dDR).imp (fun h => Nat.lt_of_le_of_ne h.1 h.2)
  exact List.eq_of_perm_of_sorted (pA.trans pDR.symm) sA' sDR'

theorem C8_size_sort_reversal_witness :
    ([FileRec.mk "a.mp4" "lib/a.mp4" "a.mp4" "" ".mp4" 5 10 true false,
      FileRec.mk "b.srt" "lib/b.srt" "b.srt" "" ".srt" 2 20 false true,
      FileRec.mk "c.mkv" "lib/c.mkv" "c.mkv" "" ".mkv" 7 5 true false].Pairwise
        (fun a b => a.size ≠ b.size)) ∧
    sortRecs [FileRec.mk "a.mp4" "lib/a.mp4" "a.mp4" "" ".mp4" 5 10 true false,
        FileRec.mk "b.srt" "lib/b.srt" "b.srt" "" ".srt" 2 20 false true,
        FileRec.mk "c.mkv" "lib/c.mkv" "c.mkv" "" ".mkv" 7 5 true false] "size" "asc" =
      (sortRecs [FileRec.mk "a.mp4" "lib/a.mp4" "a.mp4" "" ".mp4" 5 10 true false,
        FileRec.mk "b.srt" "lib/b.srt" "b.srt" "" ".srt" 2 20 false true,
        FileRec.mk "c.mkv" "lib/c.mkv" "c.mkv" "" ".mkv" 7 5 true false] "size"
        "desc").reverse :=
  ⟨by decide,
   C8_size_sort_reversal [FileRec.mk "a.mp4" "lib/a.mp4" "a.mp4" "" ".mp4" 5 10 true false,
     FileRec.mk "b.srt" "lib/b.srt" "b.srt" "" ".srt" 2 20 false true,
     FileRec.mk "c.mkv" "lib/c.mkv" "c.mkv" "" ".mkv" 7 5 true false] (by decide)⟩

/-- C4: when the primary rename of a video succeeds (with
`rename_subtitle = true`) and the companion subtitle is found, a failure of
the secondary subtitle rename leaves `success = true`, keeps the completed
primary rename (no rollback), and `renamed_files` lists the main entry alone;
the subtitle entry appears (after the main one) only when the subtitle rename
actually completed. -/
theorem C4_subtitle_failure_tolerated (fs : FS) (old_path new_name sp e : String)
    (hex : pathExists fs old_path = true)
    (hdest : ¬(pathExists fs (computedDest old_path new_name) = true ∧
      computedDest old_path new_name ≠ old_path))
    (hvid : video_extensions.contains (strLower (pySplitext (pyBasename old_path)).2) = true)
    (hfind : find_related_subtitle (osRename fs old_path (computedDest old_path new_name))
      old_path = some sp) :
    rename_file fs old_path new_name true none (some e) =
      (⟨true, successMsg 1, [⟨old_path, computedDest old_path new_name, "main"⟩]⟩,
        osRename fs old_path (computedDest old_path new_name)) ∧
    (rename_file fs old_path new_name true none none).1.success = true ∧
    (rename_file fs old_path new_name true none none).1.renamed_files =
      [⟨old_path, computedDest old_path new_name, "main"⟩,
        ⟨sp, pyJoin (pyDirname old_path) ((pySplitext new_name).1 ++ (pySplitext sp).2),
          "subtitle"⟩] := by
  have hvid2 : strLower (pySplitext (pyBasename old_path)).2 ∈ video_extensions := by
    simpa using hvid
  refine ⟨?_, ?_, ?_⟩ <;>
    simp [rename_file, hex, hdest, hvid2, hfind]

/-- C10: the secondary subtitle rename performs no destination-existence
check: when a distinct file occupies the subtitle's computed destination, the
subtitle rename is still performed through the overwriting rename primitive,
and the outcome reports `success = true` with both a `main` and a `subtitle`
entry — unlike the primary rename, which refuses to overwrite. -/
theorem C10_subtitle_overwrites_destination (fs : FS) (old_path new_name sp : String)
    (hex : pathExists fs old_path = true)
    (hdest : ¬(pathExists fs (computedDest old_path new_name) = true ∧
      computedDest old_path new_name ≠ old_path))
    (hvid : video_extensions.contains (strLower (pySplitext (pyBasename old_path)).2) = true)
    (hfind : find_related_subtitle (osRename fs old_path (computedDest old_path new_name))
      old_path = some sp)
    (hocc : isFile (osRename fs old_path (computedDest old_path new_name))
        (pyJoin (pyDirname old_path) ((pySplitext new_name).1 ++ (pySplitext sp).2)) = true)
    (hne : pyJoin (pyDirname old_path) ((pySplitext new_name).1 ++ (pySplitext sp).2) ≠ sp) :
    rename_file fs old_path new_name true none none =
      (⟨true, successMsg 2,
        [⟨old_path, computedDest old_path new_name, "main"⟩,
          ⟨sp, pyJoin (pyDirname old_path) ((pySplitext new_name).1 ++ (pySplitext sp).2),
            "subtitle"⟩]⟩,
        osRename (osRename fs old_path (computedDest old_path new_name)) sp
          (pyJoin (pyDirname old_path) ((pySplitext new_name).1 ++ (pySplitext sp).2))) ∧
    osRename (osRename fs old_path (computedDest old_path new_name)) sp
        (pyJoin (pyDirname old_path) ((pySplitext new_name).1 ++ (pySplitext sp).2)) =
      ((osRename fs old_path (computedDest old_path new_name)).filter
        (fun f => f.path ≠
          pyJoin (pyDirname old_path) ((pySplitext new_name).1 ++ (pySplitext sp).2))).map
        (fun f => if f.path = sp then
          { f with path :=
              pyJoin (pyDirname old_path) ((pySplitext new_name).1 ++ (pySplitext sp).2) }
          else f) := by
  have hvid2 : strLower (pySplitext (pyBasename old_path)).2 ∈ video_extensions := by
    simpa using hvid
  constructor
  · simp [rename_file, hex, hdest, hvid2, hfind]
  · unfold osRename
    rw [if_neg (fun h => hne h.symm)]

theorem C4_subtitle_failure_tolerated_witness :
    pathExists [RawFile.mk "lib/movie.mp4" 1 0, RawFile.mk "lib/movie.srt" 1 0]
        "lib/movie.mp4" = true ∧
    ¬(pathExists [RawFile.mk "lib/movie.mp4" 1 0, RawFile.mk "lib/movie.srt" 1 0]
        (computedDest "lib/movie.mp4" "Film") = true ∧
      computedDest "lib/movie.mp4" "Film" ≠ "lib/movie.mp4") ∧
    video_extensions.contains (strLower (pySplitext (pyBasename "lib/movie.mp4")).2) = true ∧
    find_related_subtitle
        (osRename [RawFile.mk "lib/movie.mp4" 1 0, RawFile.mk "lib/movie.srt" 1 0]
          "lib/movie.mp4" (computedDest "lib/movie.mp4" "Film")) "lib/movie.mp4" =
      some "lib/movie.srt" ∧
    (rename_file [RawFile.mk "lib/movie.mp4" 1 0, RawFile.mk "lib/movie.srt" 1 0]
        "lib/movie.mp4" "Film" true none (some "perm") =
      (⟨true, successMsg 1, [⟨"lib/movie.mp4", computedDest "lib/movie.mp4" "Film", "main"⟩]⟩,
        osRename [RawFile.mk "lib/movie.mp4" 1 0, RawFile.mk "lib/movie.srt" 1 0]
          "lib/movie.mp4" (computedDest "lib/movie.mp4" "Film")) ∧
    (rename_file [RawFile.mk "lib/movie.mp4" 1 0, RawFile.mk "lib/movie.srt" 1 0]
        "lib/movie.mp4" "Film" true none none).1.success = true ∧
    (rename_file [RawFile.mk "lib/movie.mp4" 1 0, RawFile.mk "lib/movie.srt" 1 0]
        "lib/movie.mp4" "Film" true none none).1.renamed_files =
      [⟨"lib/movie.mp4", computedDest "lib/movie.mp4" "Film", "main"⟩,
        ⟨"lib/movie.srt",
          pyJoin (pyDirname "lib/movie.mp4")
            ((pySplitext "Film").1 ++ (pySplitext "lib/movie.srt").2), "subtitle"⟩]) :=
  ⟨by decide, by decide, by decide, by decide,
   C4_subtitle_failure_tolerated
     [RawFile.mk "lib/movie.mp4" 1 0, RawFile.mk "lib/movie.srt" 1 0]
     "lib/movie.mp4" "Film" "lib/movie.srt" "perm" (by decide) (by decide) (by decide)
     (by decide)⟩

theorem C10_subtitle_overwrites_destination_witness :
    pathExists [RawFile.mk "lib/movie.mp4" 1 0, RawFile.mk "lib/movie.srt" 1 0,
        RawFile.mk "lib/Film.srt" 9 9] "lib/movie.mp4" = true ∧
    isFile
        (osRename [RawFile.mk "lib/movie.mp4" 1 0, RawFile.mk "lib/movie.srt" 1 0,
          RawFile.mk "lib/Film.srt" 9 9] "lib/movie.mp4" (computedDest "lib/movie.mp4" "Film"))
        (pyJoin (pyDirname "lib/movie.mp4")
          ((pySplitext "Film").1 ++ (pySplitext "lib/movie.srt").2)) = true ∧
    pyJoin (pyDirname "lib/movie.mp4")
        ((pySplitext "Film").1 ++ (pySplitext "lib/movie.srt").2) ≠ "lib/movie.srt" ∧
    (rename_file [RawFile.mk "lib/movie.mp4" 1 0, RawFile.mk "lib/movie.srt" 1 0,
        RawFile.mk "lib/Film.srt" 9 9] "lib/movie.mp4" "Film" true none none =
      (⟨true, successMsg 2,
        [⟨"lib/movie.mp4", computedDest "lib/movie.mp4" "Film", "main"⟩,
          ⟨"lib/movie.srt",
            pyJoin (pyDirname "lib/movie.mp4")
              ((pySplitext "Film").1 ++ (pySplitext "lib/movie.srt").2), "subtitle"⟩]⟩,
        osRename
          (osRename [RawFile.mk "lib/movie.mp4" 1 0, RawFile.mk "lib/movie.srt" 1 0,
            RawFile.mk "lib/Film.srt" 9 9] "lib/movie.mp4"
            (computedDest "lib/movie.mp4" "Film")) "lib/movie.srt"
          (pyJoin (pyDirname "lib/movie.mp4")
            ((pySplitext "Film").1 ++ (pySplitext "lib/movie.srt").2))) ∧
    osRename
        (osRename [RawFile.mk "lib/movie.mp4" 1 0, RawFile.mk "lib/movie.srt" 1 0,
          RawFile.mk "lib/Film.srt" 9 9] "lib/movie.mp4"
          (computedDest "lib/movie.mp4" "Film")) "lib/movie.srt"
        (pyJoin (pyDirname "lib/movie.mp4")
          ((pySplitext "Film").1 ++ (pySplitext "lib/movie.srt").2)) =
      ((osRename [RawFile.mk "lib/movie.mp4" 1 0, RawFile.mk "lib/movie.srt" 1 0,
          RawFile.mk "lib/Film.srt" 9 9] "lib/movie.mp4"
          (computedDest "lib/movie.mp4" "Film")).filter
        (fun f => f.path ≠
          pyJoin (pyDirname "lib/movie.mp4")
            ((pySplitext "Film").1 ++ (pySplitext "lib/movie.srt").2))).map
        (fun f => if f.path = "lib/movie.srt" then
          { f with
            path := pyJoin (pyDirname "lib/movie.mp4") ((pySplitext "Film").1 ++ (pySplitext "lib/movie.srt").2) }
          else f)) :=
  ⟨by decide, by decide, by decide,
   C10_subtitle_overwrites_destination
     [RawFile.mk "lib/movie.mp4" 1 0, RawFile.mk "lib/movie.srt" 1 0,
       RawFile.mk "lib/Film.srt" 9 9] "lib/movie.mp4" "Film" "lib/movie.srt"
     (by decide) (by decide) (by decide) (by decide) (by decide) (by decide)⟩

theorem lastIdx_eq_none {c : Char} {l : List Char} (h : c ∉ l) : lastIdx c l = none := by
  induction l with
  | nil => rfl
  | cons a t ih =>
    simp only [List.mem_cons, not_or] at h
    unfold lastIdx
    rw [ih h.2, if_neg (fun hc => h.1 hc.symm)]

theorem lastIdx_append_cons {c : Char} (xs : List Char) {ys : List Char} (h : c ∉ ys) :
    lastIdx c (xs ++ c :: ys) = some xs.length := by
  induction xs with
  | nil =>
    show lastIdx c (c :: ys) = some 0
    unfold lastIdx
    rw [lastIdx_eq_none h, if_pos rfl]
  | cons a t ih =>
    show lastIdx c (a :: (t ++ c :: ys)) = some (t.length + 1)
    unfold lastIdx
    rw [ih]

theorem lastIdx_append_of_not_mem {c : Char} {ys : List Char} (xs : List Char)
    (h : c ∉ ys) : lastIdx c (xs ++ ys) = lastIdx c xs := by
  induction xs with
  | nil =>
    show lastIdx c ys = lastIdx c []
    rw [lastIdx_eq_none h]
    rfl
  | cons a t ih =>
    show lastIdx c (a :: (t ++ ys)) = lastIdx c (a :: t)
    unfold lastIdx
    rw [ih]

/-- Splitting a filename of the shape `stem ++ '.' ++ suffix` (stem slash-free
with a non-dot character, suffix dot- and slash-free) recovers exactly the stem
and the dotted suffix. -/
theorem pySplitext_append {b r : List Char} (hb1 : ∃ c ∈ b, c ≠ '.')
    (hb2 : '/' ∉ b) (hr1 : '.' ∉ r) (hr2 : '/' ∉ r) :
    pySplitext ⟨b ++ '.' :: r⟩ = (⟨b⟩, ⟨'.' :: r⟩) := by
  have hsep : lastIdx '/' (b ++ '.' :: r) = none := by
    apply lastIdx_eq_none
    simp only [List.mem_append, List.mem_cons, not_or]
    exact ⟨hb2, by decide, hr2⟩
  have hdot : lastIdx '.' (b ++ '.' :: r) = some b.length := lastIdx_append_cons b hr1
  have hslice : ((b ++ '.' :: r).drop 0).take b.length = b := by
    rw [List.drop_zero, List.take_left]
  have hany : (((b ++ '.' :: r).drop 0).take b.length).any (fun c => c ≠ '.') = true := by
    rw [hslice]
    obtain ⟨c, hc, hcne⟩ := hb1
    exact List.any_eq_true.mpr ⟨c, hc, by simpa using hcne⟩
  unfold pySplitext
  simp only [hsep, hdot]
  rw [if_pos (by omega : (-1 : Int) < (b.length : Int))]
  simp only [Int.toNat_natCast]
  have h0 : ((-1 : Int) + 1).toNat = 0 := rfl
  rw [h0]
  simp only [Nat.sub_zero]
  rw [if_pos hany]
  rw [List.take_left, List.drop_left]

/-- C5 counterexample: the claim says no rename can ever change a file's
extension, but renaming `lib/a.mp4` to the empty name succeeds and produces
the destination filename `.mp4`, whose extension (per the same `splitext`
convention the code uses) is `""`, not `".mp4"`. -/
theorem C5_counterexample :
    (rename_file [RawFile.mk "lib/a.mp4" 5 10] "lib/a.mp4" "" true none
        none).1.success = true ∧
    (rename_file [RawFile.mk "lib/a.mp4" 5 10] "lib/a.mp4" "" true none
        none).1.renamed_files = [⟨"lib/a.mp4", "lib/.mp4", "main"⟩] ∧
    (pySplitext (pyBasename "lib/.mp4")).2 = "" ∧
    (pySplitext (pyBasename "lib/a.mp4")).2 = ".mp4" := by
  decide

/-- C5 (amended): the destination filename always equals `newName`'s stem with
the original file's extension re-appended; moreover, whenever `newName`'s stem
contains a non-dot character and no path separator and the original filename
has a (dotted) extension, the destination filename's extension equals the
original file's extension. -/
theorem C5_extension_preserved (old_path new_name : String)
    (h1 : ∃ c ∈ (pySplitext new_name).1.data, c ≠ '.')
    (h2 : '/' ∉ (pySplitext new_name).1.data)
    (h3 : ∃ r, (pySplitext (pyBasename old_path)).2.data = '.' :: r ∧
      '.' ∉ r ∧ '/' ∉ r) :
    newFilenameOf old_path new_name =
      (pySplitext new_name).1 ++ (pySplitext (pyBasename old_path)).2 ∧
    computedDest old_path new_name =
      pyJoin (pyDirname old_path) (newFilenameOf old_path new_name) ∧
    pySplitext (newFilenameOf old_path new_name) =
      ((pySplitext new_name).1, (pySplitext (pyBasename old_path)).2) := by
  obtain ⟨r, hr, hr1, hr2⟩ := h3
  refine ⟨rfl, rfl, ?_⟩
  have hnf : newFilenameOf old_path new_name =
      ⟨(pySplitext new_name).1.data ++ '.' :: r⟩ := by
    apply String.ext
    rw [show (newFilenameOf old_path new_name).data =
      (pySplitext new_name).1.data ++ (pySplitext (pyBasename old_path)).2.data from rfl, hr]
  rw [hnf, pySplitext_append h1 h2 hr1 hr2,
    show (⟨'.' :: r⟩ : String) = (pySplitext (pyBasename old_path)).2 from
      String.ext hr.symm]

theorem C5_extension_preserved_witness :
    (∃ c ∈ (pySplitext "b.zip").1.data, c ≠ '.') ∧
    '/' ∉ (pySplitext "b.zip").1.data ∧
    (∃ r, (pySplitext (pyBasename "lib/a.mp4")).2.data = '.' :: r ∧
      '.' ∉ r ∧ '/' ∉ r) ∧
    (newFilenameOf "lib/a.mp4" "b.zip" =
      (pySplitext "b.zip").1 ++ (pySplitext (pyBasename "lib/a.mp4")).2 ∧
    computedDest "lib/a.mp4" "b.zip" =
      pyJoin (pyDirname "lib/a.mp4") (newFilenameOf "lib/a.mp4" "b.zip") ∧
    pySplitext (newFilenameOf "lib/a.mp4" "b.zip") =
      ((pySplitext "b.zip").1, (pySplitext (pyBasename "lib/a.mp4")).2)) :=
  ⟨⟨'b', by decide, by decide⟩, by decide,
   ⟨['m', 'p', '4'], by decide, by decide, by decide⟩,
   C5_extension_preserved "lib/a.mp4" "b.zip" ⟨'b', by decide, by decide⟩ (by decide)
     ⟨['m', 'p', '4'], by decide, by decide, by decide⟩⟩
